import Mathlib

/-!
Shallow embedding of the damage accumulation and reset-detection loop of
`src/damage_ocr.py` (`OCRProcessorApp.process_ocr`).  Digit readings are
natural numbers (OCR with extraction failure yielding 0 happens upstream);
damage values are rationals, standing for the Python floats, with the
constants `RESET_DROP_FACTOR = 0.01` and
`SMALL_ABSOLUTE_RESET_THRESHOLD = 0.00001` rendered exactly.
A frame's reading is `some (trillion_val, hundred_million_val)` when both
image files exist for that frame and `none` otherwise.
-/

namespace DamageOcr

/-- Reset-detection thresholds, exposed as configuration
(`RESET_DROP_FACTOR` and `SMALL_ABSOLUTE_RESET_THRESHOLD` in the source). -/
structure Config where
  RESET_DROP_FACTOR : ℚ
  SMALL_ABSOLUTE_RESET_THRESHOLD : ℚ
deriving DecidableEq

/-- Default thresholds hard-coded in `process_ocr` (source lines 223-224):
`RESET_DROP_FACTOR = 0.01`, `SMALL_ABSOLUTE_RESET_THRESHOLD = 0.00001`. -/
def default_config : Config := ⟨1 / 100, 1 / 100000⟩

/-- Loop-carried state of `process_ocr` (source lines 199-215). -/
structure State where
  overall_accumulated_damage : ℚ
  last_successful_ocr_value_in_current_phase : ℚ
  reset_offset : ℚ
  last_valid_jo : ℕ
  last_valid_uk : ℕ
  previous_total_damage_for_diff : ℚ
deriving DecidableEq

/-- All state variables are initialised to zero before the loop. -/
def init_state : State := ⟨0, 0, 0, 0, 0, 0⟩

/-- One Excel row appended per processed frame (source lines 349-356). -/
structure Row where
  frame_number : ℕ
  trillion_val_for_excel : ℕ
  hundred_million_val_for_excel : ℕ
  current_total_damage_to_log : ℚ
  damage_change : ℚ
deriving DecidableEq

/-- Raw combined damage from the two digit readings:
`trillion_val + hundred_million_val / 10000.0` (source line 256). -/
def raw_current_damage_from_ocr (trillion_val hundred_million_val : ℕ) : ℚ :=
  (trillion_val : ℚ) + (hundred_million_val : ℚ) / 10000

/-- Reset-detection test of source lines 275-277. -/
def is_reset_detected (cfg : Config) (s : State) (raw : ℚ) : Bool :=
  decide (0 < s.last_successful_ocr_value_in_current_phase) &&
  decide (raw < s.last_successful_ocr_value_in_current_phase * cfg.RESET_DROP_FACTOR) &&
  decide (raw < cfg.SMALL_ABSOLUTE_RESET_THRESHOLD)

/-- Value of `reset_offset` right after the reset-detection block
(source line 282: on detection it becomes the current overall total). -/
def reset_offset_after (cfg : Config) (s : State) (raw : ℚ) : ℚ :=
  if is_reset_detected cfg s raw then s.overall_accumulated_damage else s.reset_offset

/-- Value of `last_successful_ocr_value_in_current_phase` right after the
reset-detection block (source line 285: zeroed on detection). -/
def phase_after_reset (cfg : Config) (s : State) (raw : ℚ) : ℚ :=
  if is_reset_detected cfg s raw then 0 else s.last_successful_ocr_value_in_current_phase

/-- Damage-change computation of source lines 337-344. -/
def damage_change_of (previous_total_damage_for_diff current_total_damage_to_log : ℚ) : ℚ :=
  if previous_total_damage_for_diff = 0 ∧ 0 < current_total_damage_to_log then
    current_total_damage_to_log
  else if previous_total_damage_for_diff ≤ current_total_damage_to_log then
    current_total_damage_to_log - previous_total_damage_for_diff
  else 0

/-- One iteration of the `while current_frame_to_process <= max_frame_num`
loop (source lines 229-364), for a single frame: takes the carried state and
the frame's reading (`none` when at least one of the two images is missing),
returns the updated state and the appended row. -/
def stepFrame (cfg : Config) (s : State) (frame : ℕ) (reading : Option (ℕ × ℕ)) :
    State × Row :=
  match reading with
  | some (trillion_val, hundred_million_val) =>
      let raw := raw_current_damage_from_ocr trillion_val hundred_million_val
      let offsetA := reset_offset_after cfg s raw
      let phaseA := phase_after_reset cfg s raw
      let candidate := raw + offsetA
      if candidate < s.overall_accumulated_damage then
        -- transient dip: keep the previous overall total, reuse components
        ({ s with reset_offset := offsetA,
                  last_successful_ocr_value_in_current_phase := phaseA,
                  previous_total_damage_for_diff := s.overall_accumulated_damage },
         ⟨frame, s.last_valid_jo, s.last_valid_uk, s.overall_accumulated_damage,
          damage_change_of s.previous_total_damage_for_diff s.overall_accumulated_damage⟩)
      else
        let phaseB :=
          if 0 < raw ∧ (phaseA ≤ raw ∨ is_reset_detected cfg s raw = true) then raw else phaseA
        ({ overall_accumulated_damage := candidate,
           last_successful_ocr_value_in_current_phase := phaseB,
           reset_offset := offsetA,
           last_valid_jo := trillion_val,
           last_valid_uk := hundred_million_val,
           previous_total_damage_for_diff := candidate },
         ⟨frame, trillion_val, hundred_million_val, candidate,
          damage_change_of s.previous_total_damage_for_diff candidate⟩)
  | none =>
      ({ s with previous_total_damage_for_diff := s.overall_accumulated_damage },
       ⟨frame, s.last_valid_jo, s.last_valid_uk, s.overall_accumulated_damage,
        damage_change_of s.previous_total_damage_for_diff s.overall_accumulated_damage⟩)

/-- A frame has a usable reading only when **both** unit images exist
(source line 247: `if trillion_img_path and hundred_million_img_path`). -/
def frame_reading (trillion_map hundred_million_map : ℕ → Option ℕ) (f : ℕ) :
    Option (ℕ × ℕ) :=
  match trillion_map f, hundred_million_map f with
  | some a, some b => some (a, b)
  | _, _ => none

/-- Fold of `stepFrame` over a list of frame numbers, returning the final
state and the list of emitted rows in order. -/
def run_frames (cfg : Config) (readings : ℕ → Option (ℕ × ℕ)) :
    List ℕ → State → State × List Row
  | [], s => (s, [])
  | f :: fs, s =>
      let p := stepFrame cfg s f (readings f)
      let q := run_frames cfg readings fs p.1
      (q.1, p.2 :: q.2)

/-- Frame indices visited by the loop: `start_frame`,
`start_frame + frame_interval`, ... while `≤ max_frame_num` (source lines
228-229 and 364).  The `0 < frame_interval` guard mirrors the input
validation at source line 162, which rejects non-positive intervals before
the loop runs. -/
def sampled_frames (frame_interval max_frame_num current : ℕ) : List ℕ :=
  if _h : 0 < frame_interval ∧ current ≤ max_frame_num then
    current :: sampled_frames frame_interval max_frame_num (current + frame_interval)
  else []
termination_by max_frame_num + 1 - current
decreasing_by omega

/-- Maximum frame index present in the union of the two image sets
(source lines 179-185). -/
def max_frame_of (tkeys hkeys : List ℕ) : ℕ :=
  (tkeys ++ hkeys).foldr max 0

/-- Whole processing loop: sample frames from `start_frame` stepping by
`frame_interval` up to `max_frame_num`, feeding each frame's reading to the
reducer, starting from the all-zero state. -/
def process_ocr (cfg : Config) (trillion_map hundred_million_map : ℕ → Option ℕ)
    (start_frame frame_interval max_frame_num : ℕ) : State × List Row :=
  run_frames cfg (frame_reading trillion_map hundred_million_map)
    (sampled_frames frame_interval max_frame_num start_frame) init_state

/-- Raw sequence 5.0, 5.2, 0.0001, 0.3 of the spec's reset-idempotence
scenario, as digit pairs (trillion, hundred-million). -/
def readings_reset_test : ℕ → Option (ℕ × ℕ)
  | 0 => some (5, 0)
  | 1 => some (5, 2000)
  | 2 => some (0, 1)
  | 3 => some (0, 3000)
  | _ => none

/-- Same sequence with the third raw value an exact zero, the only
attainable digit reading strictly below the default absolute reset
threshold. -/
def readings_reset_zero : ℕ → Option (ℕ × ℕ)
  | 0 => some (5, 0)
  | 1 => some (5, 2000)
  | 2 => some (0, 0)
  | 3 => some (0, 3000)
  | _ => none

/-- Trillion-unit readings of the spec's concrete scenario. -/
def tm_scenario : ℕ → Option ℕ
  | 0 => some 0
  | 24 => some 1
  | 48 => some 2
  | 72 => some 0
  | 96 => some 3
  | _ => none

/-- Hundred-million-unit readings of the spec's concrete scenario. -/
def hm_scenario : ℕ → Option ℕ
  | 0 => some 0
  | 24 => some 2000
  | 48 => some 1500
  | 72 => some 5
  | 96 => some 1000
  | _ => none

/-- A trillion-unit image set with an image at every frame. -/
def tm_only : ℕ → Option ℕ := fun _ => some 1

/-- A hundred-million-unit image set with no images at all. -/
def hm_missing : ℕ → Option ℕ := fun _ => none

/-- A concrete state whose phase baseline is positive, with equal reset
offset and overall total. -/
def mid_phase_state : State := ⟨1, 1, 1, 0, 0, 1⟩

end DamageOcr

namespace DamageOcr

theorem raw_nonneg (jo uk : ℕ) : 0 ≤ raw_current_damage_from_ocr jo uk := by
  unfold raw_current_damage_from_ocr
  positivity

theorem stepFrame_frame_eq (cfg : Config) (s : State) (f : ℕ) (r : Option (ℕ × ℕ)) :
    ((stepFrame cfg s f r).2).frame_number = f := by
  cases r with
  | none => simp [stepFrame]
  | some p =>
      obtain ⟨a, b⟩ := p
      simp only [stepFrame]
      split <;> rfl

theorem stepFrame_total_eq (cfg : Config) (s : State) (f : ℕ) (r : Option (ℕ × ℕ)) :
    ((stepFrame cfg s f r).2).current_total_damage_to_log =
      ((stepFrame cfg s f r).1).overall_accumulated_damage := by
  cases r with
  | none => simp [stepFrame]
  | some p =>
      obtain ⟨a, b⟩ := p
      simp only [stepFrame]
      split <;> rfl

theorem stepFrame_prev_eq (cfg : Config) (s : State) (f : ℕ) (r : Option (ℕ × ℕ)) :
    ((stepFrame cfg s f r).1).previous_total_damage_for_diff =
      ((stepFrame cfg s f r).2).current_total_damage_to_log := by
  cases r with
  | none => simp [stepFrame]
  | some p =>
      obtain ⟨a, b⟩ := p
      simp only [stepFrame]
      split <;> rfl

theorem stepFrame_overall_mono (cfg : Config) (s : State) (f : ℕ) (r : Option (ℕ × ℕ)) :
    s.overall_accumulated_damage ≤ ((stepFrame cfg s f r).1).overall_accumulated_damage := by
  cases r with
  | none => simp [stepFrame]
  | some p =>
      obtain ⟨a, b⟩ := p
      simp only [stepFrame]
      split
      · exact le_refl _
      · next h => exact le_of_not_lt h

theorem stepFrame_offset_le (cfg : Config) (s : State) (f : ℕ) (r : Option (ℕ × ℕ))
    (h : s.reset_offset ≤ s.overall_accumulated_damage) :
    ((stepFrame cfg s f r).1).reset_offset ≤
      ((stepFrame cfg s f r).1).overall_accumulated_damage := by
  cases r with
  | none => simpa [stepFrame] using h
  | some p =>
      obtain ⟨a, b⟩ := p
      simp only [stepFrame]
      split
      · -- reject branch: the post-detection offset is at most the old overall total
        show reset_offset_after cfg s (raw_current_damage_from_ocr a b) ≤
          s.overall_accumulated_damage
        unfold reset_offset_after
        split
        · exact le_refl _
        · exact h
      · -- accept branch: offset ≤ raw + offset because raw ≥ 0
        show reset_offset_after cfg s (raw_current_damage_from_ocr a b) ≤
          raw_current_damage_from_ocr a b +
            reset_offset_after cfg s (raw_current_damage_from_ocr a b)
        have := raw_nonneg a b
        linarith

theorem damage_change_of_eq {prev log : ℚ} (h : prev ≤ log) :
    damage_change_of prev log = log - prev := by
  unfold damage_change_of
  split
  · next hc => rw [hc.1, sub_zero]
  · rfl

theorem stepFrame_change_def (cfg : Config) (s : State) (f : ℕ) (r : Option (ℕ × ℕ)) :
    ((stepFrame cfg s f r).2).damage_change =
      damage_change_of s.previous_total_damage_for_diff
        ((stepFrame cfg s f r).2).current_total_damage_to_log := by
  cases r with
  | none => simp [stepFrame]
  | some p =>
      obtain ⟨a, b⟩ := p
      simp only [stepFrame]
      split <;> rfl

theorem stepFrame_prev_overall (cfg : Config) (s : State) (f : ℕ) (r : Option (ℕ × ℕ)) :
    ((stepFrame cfg s f r).1).previous_total_damage_for_diff =
      ((stepFrame cfg s f r).1).overall_accumulated_damage := by
  rw [stepFrame_prev_eq, stepFrame_total_eq]

theorem stepFrame_change_eq (cfg : Config) (s : State) (f : ℕ) (r : Option (ℕ × ℕ))
    (h : s.previous_total_damage_for_diff = s.overall_accumulated_damage) :
    ((stepFrame cfg s f r).2).damage_change =
      ((stepFrame cfg s f r).2).current_total_damage_to_log -
        s.overall_accumulated_damage := by
  rw [stepFrame_change_def, h]
  apply damage_change_of_eq
  rw [stepFrame_total_eq]
  exact stepFrame_overall_mono cfg s f r

theorem run_frames_map_frame (cfg : Config) (readings : ℕ → Option (ℕ × ℕ)) :
    ∀ (fs : List ℕ) (s : State),
      ((run_frames cfg readings fs s).2).map Row.frame_number = fs := by
  intro fs
  induction fs with
  | nil => intro s; simp [run_frames]
  | cons f fs ih =>
      intro s
      simp [run_frames, stepFrame_frame_eq, ih]

theorem run_frames_length (cfg : Config) (readings : ℕ → Option (ℕ × ℕ)) :
    ∀ (fs : List ℕ) (s : State),
      ((run_frames cfg readings fs s).2).length = fs.length := by
  intro fs s
  rw [← List.length_map _ Row.frame_number, run_frames_map_frame]

theorem run_frames_chain_le (cfg : Config) (readings : ℕ → Option (ℕ × ℕ)) :
    ∀ (fs : List ℕ) (s : State),
      List.Chain' (· ≤ ·)
        (s.overall_accumulated_damage ::
          ((run_frames cfg readings fs s).2).map Row.current_total_damage_to_log) := by
  intro fs
  induction fs with
  | nil => intro s; simp [run_frames]
  | cons f fs ih =>
      intro s
      have h1 := stepFrame_total_eq cfg s f (readings f)
      have h2 := stepFrame_overall_mono cfg s f (readings f)
      have h3 := ih (stepFrame cfg s f (readings f)).1
      simp only [run_frames, List.map_cons, List.chain'_cons]
      rw [h1]
      exact ⟨h2, h3⟩

theorem run_frames_overall_mono (cfg : Config) (readings : ℕ → Option (ℕ × ℕ)) :
    ∀ (fs : List ℕ) (s : State),
      s.overall_accumulated_damage ≤
        ((run_frames cfg readings fs s).1).overall_accumulated_damage := by
  intro fs
  induction fs with
  | nil => intro s; simp [run_frames]
  | cons f fs ih =>
      intro s
      have h2 := stepFrame_overall_mono cfg s f (readings f)
      have h3 := ih (stepFrame cfg s f (readings f)).1
      simp only [run_frames]
      exact le_trans h2 h3

theorem run_frames_offset_le (cfg : Config) (readings : ℕ → Option (ℕ × ℕ)) :
    ∀ (fs : List ℕ) (s : State),
      s.reset_offset ≤ s.overall_accumulated_damage →
        ((run_frames cfg readings fs s).1).reset_offset ≤
          ((run_frames cfg readings fs s).1).overall_accumulated_damage := by
  intro fs
  induction fs with
  | nil => intro s h; simpa [run_frames] using h
  | cons f fs ih =>
      intro s h
      simp only [run_frames]
      exact ih _ (stepFrame_offset_le cfg s f (readings f) h)

theorem run_frames_delta (cfg : Config) (readings : ℕ → Option (ℕ × ℕ)) :
    ∀ (fs : List ℕ) (s : State),
      s.previous_total_damage_for_diff = s.overall_accumulated_damage →
      List.Chain'
          (fun r1 r2 => r2.damage_change =
            r2.current_total_damage_to_log - r1.current_total_damage_to_log)
          ((run_frames cfg readings fs s).2) ∧
        ∀ r ∈ ((run_frames cfg readings fs s).2).head?,
          r.damage_change =
            r.current_total_damage_to_log - s.overall_accumulated_damage := by
  intro fs
  induction fs with
  | nil => intro s _; simp [run_frames]
  | cons f fs ih =>
      intro s h
      obtain ⟨hchain, hhead⟩ := ih (stepFrame cfg s f (readings f)).1
        (stepFrame_prev_overall cfg s f (readings f))
      simp only [run_frames]
      constructor
      · rw [List.chain'_cons']
        refine ⟨fun y hy => ?_, hchain⟩
        rw [hhead y hy, stepFrame_total_eq]
      · intro r hr
        simp only [List.head?_cons, Option.mem_def, Option.some.injEq] at hr
        rw [← hr]
        exact stepFrame_change_eq cfg s f (readings f) h

theorem run_head_change (cfg : Config) (readings : ℕ → Option (ℕ × ℕ))
    (fs : List ℕ) (s : State)
    (h : s.previous_total_damage_for_diff = s.overall_accumulated_damage)
    (i0 : 0 < ((run_frames cfg readings fs s).2).length) :
    (((run_frames cfg readings fs s).2).get ⟨0, i0⟩).damage_change =
      (((run_frames cfg readings fs s).2).get ⟨0, i0⟩).current_total_damage_to_log -
        s.overall_accumulated_damage := by
  apply (run_frames_delta cfg readings fs s h).2
  rw [Option.mem_def, List.get_eq_getElem, List.head?_eq_getElem?]
  exact List.getElem?_eq_getElem i0

theorem mem_sampled_frames (i m f : ℕ) (hi : 0 < i) :
    ∀ c, f ∈ sampled_frames i m c ↔ f ≤ m ∧ ∃ k, f = c + k * i := by
  intro c
  induction c using sampled_frames.induct i m with
  | case1 c hg ih =>
      rw [sampled_frames, dif_pos hg]
      constructor
      · intro hf
        rcases List.mem_cons.mp hf with hf | hf
        · exact ⟨hf ▸ hg.2, 0, by omega⟩
        · obtain ⟨hle, k, hk⟩ := (ih).mp hf
          refine ⟨hle, k + 1, ?_⟩
          rw [hk]; ring
      · rintro ⟨hle, k, rfl⟩
        rcases Nat.eq_zero_or_pos k with hk | hk
        · subst hk; simp
        · apply List.mem_cons_of_mem
          obtain ⟨j, rfl⟩ : ∃ j, k = j + 1 := ⟨k - 1, by omega⟩
          refine (ih).mpr ⟨hle, j, by ring⟩
  | case2 c hg =>
      rw [sampled_frames, dif_neg hg]
      simp only [List.not_mem_nil, false_iff]
      rintro ⟨hle, k, rfl⟩
      exact hg ⟨hi, by omega⟩

theorem sampled_frames_sorted (i m : ℕ) (hi : 0 < i) :
    ∀ c, List.Pairwise (· < ·) (sampled_frames i m c) := by
  intro c
  induction c using sampled_frames.induct i m with
  | case1 c hg ih =>
      rw [sampled_frames, dif_pos hg]
      refine List.pairwise_cons.mpr ⟨fun x hx => ?_, ih⟩
      obtain ⟨-, k, rfl⟩ := (mem_sampled_frames i m _ hi _).mp hx
      omega
  | case2 c hg =>
      rw [sampled_frames, dif_neg hg]
      exact List.Pairwise.nil

theorem le_foldr_max (l : List ℕ) (x : ℕ) (hx : x ∈ l) : x ≤ l.foldr max 0 := by
  induction l with
  | nil => cases hx
  | cons a t ih =>
      rcases List.mem_cons.mp hx with rfl | hx
      · exact le_max_left _ _
      · exact le_trans (ih hx) (le_max_right _ _)

theorem foldr_max_mem (l : List ℕ) (h : l ≠ []) : l.foldr max 0 ∈ l := by
  induction l with
  | nil => exact absurd rfl h
  | cons a t ih =>
      cases t with
      | nil => simp
      | cons b u =>
          simp only [List.foldr_cons] at *
          rcases max_choice a (max b (List.foldr max 0 u)) with hm | hm
          · rw [hm]
            exact List.mem_cons_self _ _
          · rw [hm]
            exact List.mem_cons_of_mem _ (ih (by simp))

theorem phase_cond_iff (cfg : Config) (s : State) (raw : ℚ) :
    (0 < raw ∧ (phase_after_reset cfg s raw ≤ raw ∨ is_reset_detected cfg s raw = true)) ↔
      (0 < raw ∧ (s.last_successful_ocr_value_in_current_phase ≤ raw ∨
        is_reset_detected cfg s raw = true)) := by
  unfold phase_after_reset
  by_cases hr : is_reset_detected cfg s raw = true <;> simp [hr]

end DamageOcr

namespace DamageOcr

/-- C1: for every input sequence of frame readings and every configuration,
the emitted `total_accumulated` values are non-decreasing in frame order, and
the carried `overall_accumulated_damage` state never decreases, neither in a
single step nor across the whole run. -/
theorem emitted_totals_monotone (cfg : Config) (readings : ℕ → Option (ℕ × ℕ))
    (fs : List ℕ) (s : State) :
    List.Chain' (· ≤ ·)
      (((run_frames cfg readings fs s).2).map Row.current_total_damage_to_log) ∧
    s.overall_accumulated_damage ≤
      ((run_frames cfg readings fs s).1).overall_accumulated_damage ∧
    ∀ (f : ℕ) (r : Option (ℕ × ℕ)),
      s.overall_accumulated_damage ≤
        ((stepFrame cfg s f r).1).overall_accumulated_damage :=
  ⟨(run_frames_chain_le cfg readings fs s).tail,
   run_frames_overall_mono cfg readings fs s,
   fun f r => stepFrame_overall_mono cfg s f r⟩

/-- C2: a reset is declared iff the phase baseline is positive, the raw value
is below `phase_baseline * RESET_DROP_FACTOR`, and the raw value is below
`SMALL_ABSOLUTE_RESET_THRESHOLD` (defaults 0.01 and 0.00001); exactly when a
reset is declared, `reset_offset` becomes the current overall total (both in
the detection block and in the final state of the step) and the phase
baseline is zeroed. -/
theorem reset_detection_correct (cfg : Config) (s : State) (f jo uk : ℕ) :
    (is_reset_detected cfg s (raw_current_damage_from_ocr jo uk) = true ↔
      (0 < s.last_successful_ocr_value_in_current_phase ∧
       raw_current_damage_from_ocr jo uk <
         s.last_successful_ocr_value_in_current_phase * cfg.RESET_DROP_FACTOR ∧
       raw_current_damage_from_ocr jo uk < cfg.SMALL_ABSOLUTE_RESET_THRESHOLD)) ∧
    (reset_offset_after cfg s (raw_current_damage_from_ocr jo uk) =
      if 0 < s.last_successful_ocr_value_in_current_phase ∧
         raw_current_damage_from_ocr jo uk <
           s.last_successful_ocr_value_in_current_phase * cfg.RESET_DROP_FACTOR ∧
         raw_current_damage_from_ocr jo uk < cfg.SMALL_ABSOLUTE_RESET_THRESHOLD
      then s.overall_accumulated_damage else s.reset_offset) ∧
    (phase_after_reset cfg s (raw_current_damage_from_ocr jo uk) =
      if 0 < s.last_successful_ocr_value_in_current_phase ∧
         raw_current_damage_from_ocr jo uk <
           s.last_successful_ocr_value_in_current_phase * cfg.RESET_DROP_FACTOR ∧
         raw_current_damage_from_ocr jo uk < cfg.SMALL_ABSOLUTE_RESET_THRESHOLD
      then 0 else s.last_successful_ocr_value_in_current_phase) ∧
    ((stepFrame cfg s f (some (jo, uk))).1).reset_offset =
      reset_offset_after cfg s (raw_current_damage_from_ocr jo uk) ∧
    default_config.RESET_DROP_FACTOR = 1 / 100 ∧
    default_config.SMALL_ABSOLUTE_RESET_THRESHOLD = 1 / 100000 := by
  have hiff : is_reset_detected cfg s (raw_current_damage_from_ocr jo uk) = true ↔
      (0 < s.last_successful_ocr_value_in_current_phase ∧
       raw_current_damage_from_ocr jo uk <
         s.last_successful_ocr_value_in_current_phase * cfg.RESET_DROP_FACTOR ∧
       raw_current_damage_from_ocr jo uk < cfg.SMALL_ABSOLUTE_RESET_THRESHOLD) := by
    simp [is_reset_detected, and_assoc]
  refine ⟨hiff, ?_, ?_, ?_, rfl, rfl⟩
  · unfold reset_offset_after
    by_cases hr : is_reset_detected cfg s (raw_current_damage_from_ocr jo uk) = true
    · rw [if_pos hr, if_pos (hiff.mp hr)]
    · rw [if_neg hr, if_neg (fun hc => hr (hiff.mpr hc))]
  · unfold phase_after_reset
    by_cases hr : is_reset_detected cfg s (raw_current_damage_from_ocr jo uk) = true
    · rw [if_pos hr, if_pos (hiff.mp hr)]
    · rw [if_neg hr, if_neg (fun hc => hr (hiff.mpr hc))]
  · simp only [stepFrame]
    split <;> rfl

/-- C3: on a present reading, with candidate total `raw + reset_offset`
(offset taken after reset detection): if the candidate is below the carried
overall total, the overall total is kept, the previous total is emitted and
the last logged components are reused; otherwise the overall total becomes
the candidate and is emitted, the last logged components become the current
digit pair, and the phase baseline is set to `raw` exactly when `raw > 0`
and (`raw` is at least the previous phase baseline or a reset occurred this
frame), otherwise keeping its post-detection value. -/
theorem present_frame_update (cfg : Config) (s : State) (f jo uk : ℕ) :
    if raw_current_damage_from_ocr jo uk +
        reset_offset_after cfg s (raw_current_damage_from_ocr jo uk) <
        s.overall_accumulated_damage then
      ((stepFrame cfg s f (some (jo, uk))).1).overall_accumulated_damage =
          s.overall_accumulated_damage ∧
      ((stepFrame cfg s f (some (jo, uk))).2).current_total_damage_to_log =
          s.overall_accumulated_damage ∧
      ((stepFrame cfg s f (some (jo, uk))).2).trillion_val_for_excel = s.last_valid_jo ∧
      ((stepFrame cfg s f (some (jo, uk))).2).hundred_million_val_for_excel =
          s.last_valid_uk ∧
      ((stepFrame cfg s f (some (jo, uk))).1).last_valid_jo = s.last_valid_jo ∧
      ((stepFrame cfg s f (some (jo, uk))).1).last_valid_uk = s.last_valid_uk
    else
      ((stepFrame cfg s f (some (jo, uk))).1).overall_accumulated_damage =
          raw_current_damage_from_ocr jo uk +
            reset_offset_after cfg s (raw_current_damage_from_ocr jo uk) ∧
      ((stepFrame cfg s f (some (jo, uk))).2).current_total_damage_to_log =
          raw_current_damage_from_ocr jo uk +
            reset_offset_after cfg s (raw_current_damage_from_ocr jo uk) ∧
      ((stepFrame cfg s f (some (jo, uk))).2).trillion_val_for_excel = jo ∧
      ((stepFrame cfg s f (some (jo, uk))).2).hundred_million_val_for_excel = uk ∧
      ((stepFrame cfg s f (some (jo, uk))).1).last_valid_jo = jo ∧
      ((stepFrame cfg s f (some (jo, uk))).1).last_valid_uk = uk ∧
      ((stepFrame cfg s f (some (jo, uk))).1).last_successful_ocr_value_in_current_phase =
        (if 0 < raw_current_damage_from_ocr jo uk ∧
            (s.last_successful_ocr_value_in_current_phase ≤
                raw_current_damage_from_ocr jo uk ∨
              is_reset_detected cfg s (raw_current_damage_from_ocr jo uk) = true)
         then raw_current_damage_from_ocr jo uk
         else phase_after_reset cfg s (raw_current_damage_from_ocr jo uk)) := by
  by_cases hc : raw_current_damage_from_ocr jo uk +
      reset_offset_after cfg s (raw_current_damage_from_ocr jo uk) <
      s.overall_accumulated_damage
  · rw [if_pos hc]
    simp only [stepFrame]
    rw [if_pos hc]
    exact ⟨rfl, rfl, rfl, rfl, rfl, rfl⟩
  · rw [if_neg hc]
    simp only [stepFrame]
    rw [if_neg hc]
    refine ⟨rfl, rfl, rfl, rfl, rfl, rfl, ?_⟩
    show (if 0 < raw_current_damage_from_ocr jo uk ∧
            (phase_after_reset cfg s (raw_current_damage_from_ocr jo uk) ≤
                raw_current_damage_from_ocr jo uk ∨
              is_reset_detected cfg s (raw_current_damage_from_ocr jo uk) = true)
          then raw_current_damage_from_ocr jo uk
          else phase_after_reset cfg s (raw_current_damage_from_ocr jo uk)) = _
    by_cases hp : 0 < raw_current_damage_from_ocr jo uk ∧
        (s.last_successful_ocr_value_in_current_phase ≤ raw_current_damage_from_ocr jo uk ∨
          is_reset_detected cfg s (raw_current_damage_from_ocr jo uk) = true)
    · rw [if_pos ((phase_cond_iff cfg s _).mpr hp), if_pos hp]
    · rw [if_neg (fun hx => hp ((phase_cond_iff cfg s _).mp hx)), if_neg hp]

/-- C4: in a run from the initial state, every row after the first has
`delta = total - previous total` exactly (the clamp to zero never binds);
the first row ever to carry a nonzero total has `delta` equal to that
total; and after every step the diff accumulator equals the emitted
total. -/
theorem delta_consistency (cfg : Config) (readings : ℕ → Option (ℕ × ℕ))
    (fs : List ℕ) :
    (∀ (i : ℕ) (hi : i + 1 < ((run_frames cfg readings fs init_state).2).length),
      (((run_frames cfg readings fs init_state).2).get ⟨i + 1, hi⟩).damage_change =
        (((run_frames cfg readings fs init_state).2).get
            ⟨i + 1, hi⟩).current_total_damage_to_log -
          (((run_frames cfg readings fs init_state).2).get
            ⟨i, by omega⟩).current_total_damage_to_log) ∧
    (∀ (i : ℕ) (hi : i < ((run_frames cfg readings fs init_state).2).length),
      (∀ (j : ℕ) (hj : j < i),
        (((run_frames cfg readings fs init_state).2).get
            ⟨j, lt_trans hj hi⟩).current_total_damage_to_log = 0) →
      (((run_frames cfg readings fs init_state).2).get
          ⟨i, hi⟩).current_total_damage_to_log ≠ 0 →
      (((run_frames cfg readings fs init_state).2).get ⟨i, hi⟩).damage_change =
        (((run_frames cfg readings fs init_state).2).get
          ⟨i, hi⟩).current_total_damage_to_log) ∧
    (∀ (s : State) (f : ℕ) (r : Option (ℕ × ℕ)),
      ((stepFrame cfg s f r).1).previous_total_damage_for_diff =
        ((stepFrame cfg s f r).2).current_total_damage_to_log) := by
  have hch := (run_frames_delta cfg readings fs init_state rfl).1
  rw [List.chain'_iff_get] at hch
  refine ⟨fun i hi => hch i (by omega), ?_, fun s f r => stepFrame_prev_eq cfg s f r⟩
  intro i hi hz hnz
  cases i with
  | zero =>
      have h0 := run_head_change cfg readings fs init_state rfl hi
      rw [show init_state.overall_accumulated_damage = (0 : ℚ) from rfl, sub_zero] at h0
      exact h0
  | succ j =>
      have hd := hch j (by omega)
      rw [hd, hz j (Nat.lt_succ_self j), sub_zero]

/-- C4 witness: in the two-frame run on the reset-test readings, the second
row's delta is exactly the difference of the two totals. -/
theorem delta_consistency_witness :
    (((run_frames default_config readings_reset_test [0, 1] init_state).2).get
        ⟨1, by simp [run_frames_length]⟩).damage_change =
      (((run_frames default_config readings_reset_test [0, 1] init_state).2).get
          ⟨1, by simp [run_frames_length]⟩).current_total_damage_to_log -
        (((run_frames default_config readings_reset_test [0, 1] init_state).2).get
          ⟨0, by simp [run_frames_length]⟩).current_total_damage_to_log :=
  (delta_consistency default_config readings_reset_test [0, 1]).1 0
    (by simp [run_frames_length])

end DamageOcr

namespace DamageOcr

/-- C5 counterexample: on the raw sequence 5.0, 5.2, 0.0001, 0.3 with the
default thresholds, no reset is detected at the 0.0001 frame (0.0001 is not
below `SMALL_ABSOLUTE_RESET_THRESHOLD = 0.00001`), and the final overall
total stays at 5.2 instead of the claimed 5.2 + 0.3. -/
theorem reset_idempotence_counterexample :
    is_reset_detected default_config
        ((run_frames default_config readings_reset_test [0, 1] init_state).1)
        (raw_current_damage_from_ocr 0 1) = false ∧
    ((run_frames default_config readings_reset_test [0, 1]
        init_state).1).overall_accumulated_damage = 26 / 5 ∧
    ((run_frames default_config readings_reset_test [0, 1, 2, 3]
        init_state).1).overall_accumulated_damage ≠ 26 / 5 + 3 / 10 := by
  have h0 : stepFrame default_config init_state 0 (readings_reset_test 0) =
      (⟨5, 5, 0, 5, 0, 5⟩, ⟨0, 5, 0, 5, 5⟩) := by
    norm_num [stepFrame, raw_current_damage_from_ocr, is_reset_detected,
      reset_offset_after, phase_after_reset, damage_change_of, default_config,
      init_state, readings_reset_test]
  have h1 : stepFrame default_config ⟨5, 5, 0, 5, 0, 5⟩ 1 (readings_reset_test 1) =
      (⟨26/5, 26/5, 0, 5, 2000, 26/5⟩, ⟨1, 5, 2000, 26/5, 1/5⟩) := by
    norm_num [stepFrame, raw_current_damage_from_ocr, is_reset_detected,
      reset_offset_after, phase_after_reset, damage_change_of, default_config,
      readings_reset_test]
  have h2 : stepFrame default_config ⟨26/5, 26/5, 0, 5, 2000, 26/5⟩ 2
      (readings_reset_test 2) =
      (⟨26/5, 26/5, 0, 5, 2000, 26/5⟩, ⟨2, 5, 2000, 26/5, 0⟩) := by
    norm_num [stepFrame, raw_current_damage_from_ocr, is_reset_detected,
      reset_offset_after, phase_after_reset, damage_change_of, default_config,
      readings_reset_test]
  have h3 : stepFrame default_config ⟨26/5, 26/5, 0, 5, 2000, 26/5⟩ 3
      (readings_reset_test 3) =
      (⟨26/5, 26/5, 0, 5, 2000, 26/5⟩, ⟨3, 5, 2000, 26/5, 0⟩) := by
    norm_num [stepFrame, raw_current_damage_from_ocr, is_reset_detected,
      reset_offset_after, phase_after_reset, damage_change_of, default_config,
      readings_reset_test]
  have hr2 : run_frames default_config readings_reset_test [0, 1] init_state =
      (⟨26/5, 26/5, 0, 5, 2000, 26/5⟩, [⟨0, 5, 0, 5, 5⟩, ⟨1, 5, 2000, 26/5, 1/5⟩]) := by
    simp only [run_frames, h0, h1]
  have hr4 : run_frames default_config readings_reset_test [0, 1, 2, 3] init_state =
      (⟨26/5, 26/5, 0, 5, 2000, 26/5⟩,
       [⟨0, 5, 0, 5, 5⟩, ⟨1, 5, 2000, 26/5, 1/5⟩, ⟨2, 5, 2000, 26/5, 0⟩,
        ⟨3, 5, 2000, 26/5, 0⟩]) := by
    simp only [run_frames, h0, h1, h2, h3]
  refine ⟨?_, ?_, ?_⟩
  · rw [hr2]
    norm_num [is_reset_detected, raw_current_damage_from_ocr, default_config]
  · rw [hr2]
  · rw [hr4]
    norm_num

/-- C5 amended: on the raw sequence 5.0, 5.2, 0.0 (exact zero — with default
thresholds and integer digit readings, the only attainable raw value below
0.00001), 0.3, a reset is detected at the zero frame; the reset offset
becomes 5.2, the total logged at raw = 5.2, and the overall total after the
0.3 frame equals that offset plus 0.3. -/
theorem reset_idempotence_amended_thm :
    is_reset_detected default_config
        ((run_frames default_config readings_reset_zero [0, 1] init_state).1)
        (raw_current_damage_from_ocr 0 0) = true ∧
    ((run_frames default_config readings_reset_zero [0, 1]
        init_state).1).overall_accumulated_damage = 26 / 5 ∧
    ((run_frames default_config readings_reset_zero [0, 1, 2]
        init_state).1).reset_offset = 26 / 5 ∧
    ((run_frames default_config readings_reset_zero [0, 1, 2, 3]
        init_state).1).overall_accumulated_damage = 26 / 5 + 3 / 10 := by
  have h0 : stepFrame default_config init_state 0 (readings_reset_zero 0) =
      (⟨5, 5, 0, 5, 0, 5⟩, ⟨0, 5, 0, 5, 5⟩) := by
    norm_num [stepFrame, raw_current_damage_from_ocr, is_reset_detected,
      reset_offset_after, phase_after_reset, damage_change_of, default_config,
      init_state, readings_reset_zero]
  have h1 : stepFrame default_config ⟨5, 5, 0, 5, 0, 5⟩ 1 (readings_reset_zero 1) =
      (⟨26/5, 26/5, 0, 5, 2000, 26/5⟩, ⟨1, 5, 2000, 26/5, 1/5⟩) := by
    norm_num [stepFrame, raw_current_damage_from_ocr, is_reset_detected,
      reset_offset_after, phase_after_reset, damage_change_of, default_config,
      readings_reset_zero]
  have h2 : stepFrame default_config ⟨26/5, 26/5, 0, 5, 2000, 26/5⟩ 2
      (readings_reset_zero 2) =
      (⟨26/5, 0, 26/5, 0, 0, 26/5⟩, ⟨2, 0, 0, 26/5, 0⟩) := by
    norm_num [stepFrame, raw_current_damage_from_ocr, is_reset_detected,
      reset_offset_after, phase_after_reset, damage_change_of, default_config,
      readings_reset_zero]
  have h3 : stepFrame default_config ⟨26/5, 0, 26/5, 0, 0, 26/5⟩ 3
      (readings_reset_zero 3) =
      (⟨11/2, 3/10, 26/5, 0, 3000, 11/2⟩, ⟨3, 0, 3000, 11/2, 3/10⟩) := by
    norm_num [stepFrame, raw_current_damage_from_ocr, is_reset_detected,
      reset_offset_after, phase_after_reset, damage_change_of, default_config,
      readings_reset_zero]
  have hr2 : run_frames default_config readings_reset_zero [0, 1] init_state =
      (⟨26/5, 26/5, 0, 5, 2000, 26/5⟩, [⟨0, 5, 0, 5, 5⟩, ⟨1, 5, 2000, 26/5, 1/5⟩]) := by
    simp only [run_frames, h0, h1]
  have hr3 : run_frames default_config readings_reset_zero [0, 1, 2] init_state =
      (⟨26/5, 0, 26/5, 0, 0, 26/5⟩,
       [⟨0, 5, 0, 5, 5⟩, ⟨1, 5, 2000, 26/5, 1/5⟩, ⟨2, 0, 0, 26/5, 0⟩]) := by
    simp only [run_frames, h0, h1, h2]
  have hr4 : run_frames default_config readings_reset_zero [0, 1, 2, 3] init_state =
      (⟨11/2, 3/10, 26/5, 0, 3000, 11/2⟩,
       [⟨0, 5, 0, 5, 5⟩, ⟨1, 5, 2000, 26/5, 1/5⟩, ⟨2, 0, 0, 26/5, 0⟩,
        ⟨3, 0, 3000, 11/2, 3/10⟩]) := by
    simp only [run_frames, h0, h1, h2, h3]
  refine ⟨?_, ?_, ?_, ?_⟩
  · rw [hr2]
    norm_num [is_reset_detected, raw_current_damage_from_ocr, default_config]
  · rw [hr2]
  · rw [hr3]
  · rw [hr4]
    norm_num

end DamageOcr

namespace DamageOcr

theorem sampled_frames_24_96 : sampled_frames 24 96 0 = [0, 24, 48, 72, 96] := by
  rw [sampled_frames, dif_pos (by omega)]
  rw [sampled_frames, dif_pos (by omega)]
  rw [sampled_frames, dif_pos (by omega)]
  rw [sampled_frames, dif_pos (by omega)]
  rw [sampled_frames, dif_pos (by omega)]
  rw [sampled_frames, dif_neg (by omega)]

theorem scenario_run :
    run_frames default_config (frame_reading tm_scenario hm_scenario)
        [0, 24, 48, 72, 96] init_state =
      (⟨31/10, 31/10, 0, 3, 1000, 31/10⟩,
       [⟨0, 0, 0, 0, 0⟩, ⟨24, 1, 2000, 6/5, 6/5⟩, ⟨48, 2, 1500, 43/20, 19/20⟩,
        ⟨72, 2, 1500, 43/20, 0⟩, ⟨96, 3, 1000, 31/10, 19/20⟩]) := by
  have h0 : stepFrame default_config init_state 0
      (frame_reading tm_scenario hm_scenario 0) =
      (⟨0, 0, 0, 0, 0, 0⟩, ⟨0, 0, 0, 0, 0⟩) := by
    norm_num [stepFrame, raw_current_damage_from_ocr, is_reset_detected,
      reset_offset_after, phase_after_reset, damage_change_of, default_config,
      init_state, frame_reading, tm_scenario, hm_scenario]
  have h1 : stepFrame default_config ⟨0, 0, 0, 0, 0, 0⟩ 24
      (frame_reading tm_scenario hm_scenario 24) =
      (⟨6/5, 6/5, 0, 1, 2000, 6/5⟩, ⟨24, 1, 2000, 6/5, 6/5⟩) := by
    norm_num [stepFrame, raw_current_damage_from_ocr, is_reset_detected,
      reset_offset_after, phase_after_reset, damage_change_of, default_config,
      frame_reading, tm_scenario, hm_scenario]
  have h2 : stepFrame default_config ⟨6/5, 6/5, 0, 1, 2000, 6/5⟩ 48
      (frame_reading tm_scenario hm_scenario 48) =
      (⟨43/20, 43/20, 0, 2, 1500, 43/20⟩, ⟨48, 2, 1500, 43/20, 19/20⟩) := by
    norm_num [stepFrame, raw_current_damage_from_ocr, is_reset_detected,
      reset_offset_after, phase_after_reset, damage_change_of, default_config,
      frame_reading, tm_scenario, hm_scenario]
  have h3 : stepFrame default_config ⟨43/20, 43/20, 0, 2, 1500, 43/20⟩ 72
      (frame_reading tm_scenario hm_scenario 72) =
      (⟨43/20, 43/20, 0, 2, 1500, 43/20⟩, ⟨72, 2, 1500, 43/20, 0⟩) := by
    norm_num [stepFrame, raw_current_damage_from_ocr, is_reset_detected,
      reset_offset_after, phase_after_reset, damage_change_of, default_config,
      frame_reading, tm_scenario, hm_scenario]
  have h4 : stepFrame default_config ⟨43/20, 43/20, 0, 2, 1500, 43/20⟩ 96
      (frame_reading tm_scenario hm_scenario 96) =
      (⟨31/10, 31/10, 0, 3, 1000, 31/10⟩, ⟨96, 3, 1000, 31/10, 19/20⟩) := by
    norm_num [stepFrame, raw_current_damage_from_ocr, is_reset_detected,
      reset_offset_after, phase_after_reset, damage_change_of, default_config,
      frame_reading, tm_scenario, hm_scenario]
  simp only [run_frames, h0, h1, h2, h3, h4]

/-- C6 counterexample: the concrete scenario's emitted totals are not
`[0, 1.2, 2.15, 2.15, 3.25]` — the reading (3, 1000) yields a final total of
3 + 1000/10000 = 3.1, not 3.25. -/
theorem concrete_scenario_counterexample :
    ¬(((process_ocr default_config tm_scenario hm_scenario 0 24 96).2).map
        Row.current_total_damage_to_log = [0, 6 / 5, 43 / 20, 43 / 20, 13 / 4]) := by
  unfold process_ocr
  rw [sampled_frames_24_96, scenario_run]
  norm_num

/-- C6 amended: the concrete scenario's emitted totals are
`[0, 1.2, 2.15, 2.15, 3.1]` — the fourth frame is a rejected dip (its
candidate is below the carried total) with no reset (0.0005 is not below
0.00001), and the final total is 3 + 1000/10000 = 3.1. -/
theorem concrete_scenario_amended_thm :
    ((process_ocr default_config tm_scenario hm_scenario 0 24 96).2).map
        Row.current_total_damage_to_log = [0, 6 / 5, 43 / 20, 43 / 20, 31 / 10] ∧
    is_reset_detected default_config
        ((run_frames default_config (frame_reading tm_scenario hm_scenario)
            [0, 24, 48] init_state).1)
        (raw_current_damage_from_ocr 0 5) = false ∧
    raw_current_damage_from_ocr 0 5 +
        reset_offset_after default_config
          ((run_frames default_config (frame_reading tm_scenario hm_scenario)
              [0, 24, 48] init_state).1)
          (raw_current_damage_from_ocr 0 5) <
      ((run_frames default_config (frame_reading tm_scenario hm_scenario)
          [0, 24, 48] init_state).1).overall_accumulated_damage := by
  have h0 : stepFrame default_config init_state 0
      (frame_reading tm_scenario hm_scenario 0) =
      (⟨0, 0, 0, 0, 0, 0⟩, ⟨0, 0, 0, 0, 0⟩) := by
    norm_num [stepFrame, raw_current_damage_from_ocr, is_reset_detected,
      reset_offset_after, phase_after_reset, damage_change_of, default_config,
      init_state, frame_reading, tm_scenario, hm_scenario]
  have h1 : stepFrame default_config ⟨0, 0, 0, 0, 0, 0⟩ 24
      (frame_reading tm_scenario hm_scenario 24) =
      (⟨6/5, 6/5, 0, 1, 2000, 6/5⟩, ⟨24, 1, 2000, 6/5, 6/5⟩) := by
    norm_num [stepFrame, raw_current_damage_from_ocr, is_reset_detected,
      reset_offset_after, phase_after_reset, damage_change_of, default_config,
      frame_reading, tm_scenario, hm_scenario]
  have h2 : stepFrame default_config ⟨6/5, 6/5, 0, 1, 2000, 6/5⟩ 48
      (frame_reading tm_scenario hm_scenario 48) =
      (⟨43/20, 43/20, 0, 2, 1500, 43/20⟩, ⟨48, 2, 1500, 43/20, 19/20⟩) := by
    norm_num [stepFrame, raw_current_damage_from_ocr, is_reset_detected,
      reset_offset_after, phase_after_reset, damage_change_of, default_config,
      frame_reading, tm_scenario, hm_scenario]
  have hr3 : run_frames default_config (frame_reading tm_scenario hm_scenario)
      [0, 24, 48] init_state =
      (⟨43/20, 43/20, 0, 2, 1500, 43/20⟩,
       [⟨0, 0, 0, 0, 0⟩, ⟨24, 1, 2000, 6/5, 6/5⟩, ⟨48, 2, 1500, 43/20, 19/20⟩]) := by
    simp only [run_frames, h0, h1, h2]
  refine ⟨?_, ?_, ?_⟩
  · unfold process_ocr
    rw [sampled_frames_24_96, scenario_run]
    rfl
  · rw [hr3]
    norm_num [is_reset_detected, raw_current_damage_from_ocr, default_config]
  · rw [hr3]
    norm_num [reset_offset_after, is_reset_detected, raw_current_damage_from_ocr,
      default_config]

end DamageOcr

namespace DamageOcr

/-- C7: on a frame with no reading, the emitted row carries the unchanged
overall total and the reused last-logged digit components; its delta is zero
whenever the diff accumulator equals the overall total — a property that
holds initially and is re-established by every step, hence at every frame of
a run — and no state field other than `previous_total_damage_for_diff`
changes. -/
theorem absent_frame_passthrough (cfg : Config) (s : State) (f : ℕ) :
    ((stepFrame cfg s f none).2).current_total_damage_to_log =
        s.overall_accumulated_damage ∧
    ((stepFrame cfg s f none).2).trillion_val_for_excel = s.last_valid_jo ∧
    ((stepFrame cfg s f none).2).hundred_million_val_for_excel = s.last_valid_uk ∧
    ((stepFrame cfg s f none).1).overall_accumulated_damage =
        s.overall_accumulated_damage ∧
    ((stepFrame cfg s f none).1).last_successful_ocr_value_in_current_phase =
        s.last_successful_ocr_value_in_current_phase ∧
    ((stepFrame cfg s f none).1).reset_offset = s.reset_offset ∧
    ((stepFrame cfg s f none).1).last_valid_jo = s.last_valid_jo ∧
    ((stepFrame cfg s f none).1).last_valid_uk = s.last_valid_uk ∧
    (s.previous_total_damage_for_diff = s.overall_accumulated_damage →
      ((stepFrame cfg s f none).2).damage_change = 0) ∧
    init_state.previous_total_damage_for_diff =
        init_state.overall_accumulated_damage ∧
    ∀ (t : State) (g : ℕ) (r : Option (ℕ × ℕ)),
      ((stepFrame cfg t g r).1).previous_total_damage_for_diff =
        ((stepFrame cfg t g r).1).overall_accumulated_damage := by
  refine ⟨rfl, rfl, rfl, rfl, rfl, rfl, rfl, rfl, ?_, rfl,
    fun t g r => stepFrame_prev_overall cfg t g r⟩
  intro h
  have hz := stepFrame_change_eq cfg s f none h
  rw [hz]
  show s.overall_accumulated_damage - s.overall_accumulated_damage = 0
  ring

/-- C7 witness: from the initial state, an absent frame emits a zero
delta. -/
theorem absent_frame_passthrough_witness :
    ((stepFrame default_config init_state 0 none).2).damage_change = 0 :=
  (absent_frame_passthrough default_config init_state
    0).2.2.2.2.2.2.2.2.1 rfl

/-- C8: with a validated (positive) interval, the output has exactly one row
per sampled frame, and the emitted frame numbers are exactly the values
`start_frame + k * frame_interval` not exceeding the maximum frame index
present in the union of the two input image sets, in increasing order. -/
theorem frame_schedule (cfg : Config) (tm hm : ℕ → Option ℕ)
    (start_frame frame_interval : ℕ) (tkeys hkeys : List ℕ)
    (h : 0 < frame_interval) :
    (((process_ocr cfg tm hm start_frame frame_interval
          (max_frame_of tkeys hkeys)).2).map Row.frame_number =
      sampled_frames frame_interval (max_frame_of tkeys hkeys) start_frame) ∧
    (∀ f : ℕ,
      f ∈ sampled_frames frame_interval (max_frame_of tkeys hkeys) start_frame ↔
        f ≤ max_frame_of tkeys hkeys ∧
          ∃ k : ℕ, f = start_frame + k * frame_interval) ∧
    List.Pairwise (· < ·)
      (sampled_frames frame_interval (max_frame_of tkeys hkeys) start_frame) ∧
    (∀ x : ℕ, x ∈ tkeys ∨ x ∈ hkeys → x ≤ max_frame_of tkeys hkeys) ∧
    (tkeys ++ hkeys ≠ [] →
      max_frame_of tkeys hkeys ∈ tkeys ∨ max_frame_of tkeys hkeys ∈ hkeys) := by
  refine ⟨run_frames_map_frame cfg _ _ init_state,
    fun f => mem_sampled_frames frame_interval (max_frame_of tkeys hkeys) f h start_frame,
    sampled_frames_sorted frame_interval (max_frame_of tkeys hkeys) h start_frame,
    fun x hx => ?_, fun hne => ?_⟩
  · exact le_foldr_max (tkeys ++ hkeys) x (List.mem_append.mpr hx)
  · exact List.mem_append.mp (foldr_max_mem (tkeys ++ hkeys) hne)

/-- C8 witness: with interval 2 and image sets at frames 3 and 5, the
sampled frames are strictly increasing. -/
theorem frame_schedule_witness :
    0 < 2 ∧ List.Pairwise (· < ·) (sampled_frames 2 (max_frame_of [3] [5]) 0) :=
  ⟨by decide,
   (frame_schedule default_config tm_only hm_missing 0 2 [3] [5] (by decide)).2.2.1⟩

/-- C9: a frame for which exactly one of the two unit images exists is
treated exactly like an absent frame: its reading is `none`, the step is the
absent-frame step, the prior total is emitted unchanged and the last logged
components are reused. -/
theorem single_image_is_absent (cfg : Config) (s : State)
    (tm hm : ℕ → Option ℕ) (f : ℕ)
    (h : (tm f).isSome ≠ (hm f).isSome) :
    frame_reading tm hm f = none ∧
    stepFrame cfg s f (frame_reading tm hm f) = stepFrame cfg s f none ∧
    ((stepFrame cfg s f (frame_reading tm hm f)).2).current_total_damage_to_log =
        s.overall_accumulated_damage ∧
    ((stepFrame cfg s f (frame_reading tm hm f)).2).trillion_val_for_excel =
        s.last_valid_jo ∧
    ((stepFrame cfg s f (frame_reading tm hm f)).2).hundred_million_val_for_excel =
        s.last_valid_uk ∧
    ((stepFrame cfg s f (frame_reading tm hm f)).1).overall_accumulated_damage =
        s.overall_accumulated_damage := by
  have hn : frame_reading tm hm f = none := by
    unfold frame_reading
    cases ht : tm f <;> cases hh : hm f <;> simp [ht, hh] at h ⊢
  rw [hn]
  exact ⟨rfl, rfl, rfl, rfl, rfl, rfl⟩

/-- C9 witness: a frame with only a trillion-unit image has a `none`
reading. -/
theorem single_image_is_absent_witness :
    (tm_only 0).isSome ≠ (hm_missing 0).isSome ∧
    frame_reading tm_only hm_missing 0 = none :=
  ⟨by decide,
   (single_image_is_absent default_config init_state tm_only hm_missing 0 (by decide)).1⟩

/-- C10: the reset offset never exceeds the overall total — initially, after
every step from an invariant-satisfying state, and at every point of a run
from the initial state — with equality immediately after a detected reset;
the candidate total is always at least the reset offset; and a frame that
detects a reset can never take the rejection branch (its candidate is not
below the carried overall total). -/
theorem reset_offset_le_overall (cfg : Config) (readings : ℕ → Option (ℕ × ℕ)) :
    init_state.reset_offset ≤ init_state.overall_accumulated_damage ∧
    (∀ (s : State) (f : ℕ) (r : Option (ℕ × ℕ)),
      s.reset_offset ≤ s.overall_accumulated_damage →
        ((stepFrame cfg s f r).1).reset_offset ≤
          ((stepFrame cfg s f r).1).overall_accumulated_damage) ∧
    (∀ fs : List ℕ,
      ((run_frames cfg readings fs init_state).1).reset_offset ≤
        ((run_frames cfg readings fs init_state).1).overall_accumulated_damage) ∧
    (∀ (s : State) (jo uk : ℕ),
      is_reset_detected cfg s (raw_current_damage_from_ocr jo uk) = true →
        reset_offset_after cfg s (raw_current_damage_from_ocr jo uk) =
          s.overall_accumulated_damage) ∧
    (∀ (s : State) (jo uk : ℕ),
      reset_offset_after cfg s (raw_current_damage_from_ocr jo uk) ≤
        raw_current_damage_from_ocr jo uk +
          reset_offset_after cfg s (raw_current_damage_from_ocr jo uk)) ∧
    (∀ (s : State) (jo uk : ℕ),
      is_reset_detected cfg s (raw_current_damage_from_ocr jo uk) = true →
        ¬(raw_current_damage_from_ocr jo uk +
            reset_offset_after cfg s (raw_current_damage_from_ocr jo uk) <
          s.overall_accumulated_damage)) := by
  refine ⟨le_refl 0, fun s f r h => stepFrame_offset_le cfg s f r h,
    fun fs => run_frames_offset_le cfg readings fs init_state (le_refl 0), ?_, ?_, ?_⟩
  · intro s jo uk hr
    unfold reset_offset_after
    rw [if_pos hr]
  · intro s jo uk
    have := raw_nonneg jo uk
    linarith
  · intro s jo uk hr
    unfold reset_offset_after
    rw [if_pos hr]
    have := raw_nonneg jo uk
    intro hc
    linarith

/-- C10 witness: a state with phase baseline 1 and equal offset and total,
together with the all-ones thresholds and a zero raw reading, satisfies the
invariant and detects a reset whose frame cannot be rejected. -/
theorem reset_offset_le_overall_witness :
    ((stepFrame (⟨1, 1⟩ : Config) mid_phase_state 0 none).1).reset_offset ≤
      ((stepFrame (⟨1, 1⟩ : Config) mid_phase_state 0 none).1).overall_accumulated_damage ∧
    reset_offset_after (⟨1, 1⟩ : Config) mid_phase_state
        (raw_current_damage_from_ocr 0 0) =
      mid_phase_state.overall_accumulated_damage ∧
    ¬(raw_current_damage_from_ocr 0 0 +
        reset_offset_after (⟨1, 1⟩ : Config) mid_phase_state
          (raw_current_damage_from_ocr 0 0) <
      mid_phase_state.overall_accumulated_damage) :=
  ⟨(reset_offset_le_overall (⟨1, 1⟩ : Config) (fun _ => none)).2.1
      mid_phase_state 0 none (le_refl 1),
   (reset_offset_le_overall (⟨1, 1⟩ : Config) (fun _ => none)).2.2.2.1
      mid_phase_state 0 0
      (by simp [is_reset_detected, raw_current_damage_from_ocr, mid_phase_state]),
   (reset_offset_le_overall (⟨1, 1⟩ : Config) (fun _ => none)).2.2.2.2.2
      mid_phase_state 0 0
      (by simp [is_reset_detected, raw_current_damage_from_ocr, mid_phase_state])⟩

end DamageOcr
